import Mathlib

set_option maxRecDepth 100000
set_option maxHeartbeats 4000000

/-!
Verification of the StartupSeal trust-scoring core.

Shallow embedding of:
  * src/nautilus-agent/src/github_auth.py  (GitHubCommitVerifier: commit-pattern
    analysis, consistency / activity / ownership scores, authenticity verdict)
  * src/nautilus-agent/src/scorer.py       (TrustScorer: weighted 3-category
    aggregation, risk / confidence tiers, fraud likelihood)
  * src/dev-backend/ai/realtime_scorer.py  (RealtimeScorer: 5-category realtime
    aggregation and the per-category signal scorers)
  * src/nautilus-agent/src/agent.py        (verification fingerprints: the
    sort_keys JSON + SHA-256 digest and the colon-joined f-string + SHA-256
    digest)

Network requests are modelled by explicit environment records carrying the
status of each HTTP call and the payload it would return.  Python floats are
modelled as exact rationals; Python `round(x, 2)` is modelled as rounding to
the nearest hundredth with ties going to the even hundredth (banker's
rounding, the documented behaviour of Python's `round`).  Python `int(x)` on
the non-negative quotients appearing here is modelled as natural floor
division.
-/

namespace GitHubCommitVerifier

/-- One matched commit, as seen by `analyze_commit_pattern`: the commit is kept
in the matched list even when its author date is missing, but only dated
commits contribute to the consistency / activity metrics (the Python code
builds `commit_dates` by skipping commits with an empty date string).
`week` is the ISO calendar week number of the author date and `daysAgo` is the
whole-day difference `(now - date).days`. -/
structure DateInfo where
  week : Nat
  daysAgo : Int
deriving DecidableEq

/-- Outcome of the two HTTP requests made by `_calculate_ownership_score`:
whether `GET /repos/{repo}` returned 200, whether
`GET /repos/{repo}/stats/contributors` returned 200, and the `total` field of
each contributor entry in the stats payload. -/
structure OwnershipEnv where
  repoInfoOk : Bool
  statsOk : Bool
  contributorTotals : List Nat
deriving DecidableEq

/-- `GitHubCommitVerifier._calculate_ownership_score`: returns the pair
`(ownership_score, total_commits)`.  The repo-info request failing gives
`(0, 0)`; the contributor-stats request failing gives the documented neutral
fallback `(50, user_commits)`; a zero contributor total gives `(0, 0)`;
otherwise `min(100, int(user_commits / total * 100))`. -/
def calculate_ownership_score (env : OwnershipEnv) (user_commits : Nat) : Nat × Nat :=
  if env.repoInfoOk = false then (0, 0)
  else if env.statsOk = false then (50, user_commits)
  else
    let total_commits := env.contributorTotals.sum
    if total_commits = 0 then (0, 0)
    else (min 100 (user_commits * 100 / total_commits), total_commits)

/-- `GitHubCommitVerifier._calculate_consistency`: zero for fewer than two
dated commits, otherwise `int(min(100, distinct_week_count / 52 * 100))`. -/
def calculate_consistency (commit_dates : List DateInfo) : Nat :=
  if commit_dates.length < 2 then 0
  else min 100 ((commit_dates.map (·.week)).dedup.length * 100 / 52)

/-- `GitHubCommitVerifier._calculate_activity_score`: zero for no dated
commits, otherwise `int(min(100, recent_commit_count / 10 * 100))` where a
commit is recent when `(now - date).days <= 90`. -/
def calculate_activity_score (commit_dates : List DateInfo) : Nat :=
  if commit_dates.length = 0 then 0
  else min 100 ((commit_dates.filter (fun d => d.daysAgo ≤ 90)).length * 10)

/-- The fields of the dict returned by `analyze_commit_pattern` that the
specification constrains (`first_commit`, `last_commit` and
`commit_frequency` are reporting-only fields and are not modelled). -/
structure CommitAnalysis where
  user_commits : Nat
  total_commits : Nat
  ownership_score : Nat
  activity_score : Nat
  consistency_score : Nat
  is_authentic : Bool
deriving DecidableEq

/-- `GitHubCommitVerifier.analyze_commit_pattern`, given the list of commits
matched to the claimed username and the ownership-score environment.  An empty
matched list returns the all-zero verdict; otherwise the three scores are
computed and `is_authentic` is the conjunction of the three thresholds. -/
def analyze_commit_pattern (env : OwnershipEnv) (commits : List (Option DateInfo)) :
    CommitAnalysis :=
  if commits.isEmpty then
    { user_commits := 0, total_commits := 0, ownership_score := 0,
      activity_score := 0, consistency_score := 0, is_authentic := false }
  else
    let commit_dates := commits.filterMap id
    let user_commits := commits.length
    let consistency_score := calculate_consistency commit_dates
    let activity_score := calculate_activity_score commit_dates
    let own := calculate_ownership_score env user_commits
    { user_commits := user_commits, total_commits := own.2, ownership_score := own.1,
      activity_score := activity_score, consistency_score := consistency_score,
      is_authentic := decide (5 ≤ user_commits ∧ 50 ≤ consistency_score ∧ 20 ≤ own.1) }

/-- Environment for the §8 scenario: both HTTP requests succeed and the
contributor totals sum to 30. -/
def scenarioEnv : OwnershipEnv := ⟨true, true, [12, 18]⟩

/-- Matched commits for the §8 scenario: 6 commits, 5 distinct ISO weeks
(week 1 twice), 2 commits within the last 90 days. -/
def scenarioCommits : List (Option DateInfo) :=
  [some ⟨1, 10⟩, some ⟨1, 80⟩, some ⟨2, 120⟩, some ⟨3, 180⟩, some ⟨4, 250⟩, some ⟨5, 320⟩]

end GitHubCommitVerifier

namespace TrustScorer

/-- Round half to even at integer precision: the model of how Python's
`round` resolves a value (banker's rounding).  Off ties it agrees with
rounding to the nearest integer. -/
def rhe (x : ℚ) : ℤ :=
  if Int.fract x = 1/2 then (if ⌊x⌋ % 2 = 0 then ⌊x⌋ else ⌊x⌋ + 1) else round x

/-- Python `round(x, 2)`: round to the nearest hundredth, ties to even. -/
def round2 (x : ℚ) : ℚ := (rhe (100 * x) : ℚ) / 100

/-- Python `round(x, 3)`: round to the nearest thousandth, ties to even. -/
def round3 (x : ℚ) : ℚ := (rhe (1000 * x) : ℚ) / 1000

/-- Risk tiers of `TrustScorer.calculate_final_score`. -/
inductive RiskLevel
  | LOW | MEDIUM | HIGH | CRITICAL
deriving DecidableEq

/-- Confidence tiers of `TrustScorer.calculate_final_score`. -/
inductive ConfidenceLevel
  | HIGH | MEDIUM | LOW
deriving DecidableEq

/-- The weighted overall score before rounding:
`off_chain * 0.40 + on_chain * 0.40 + ai * 0.20`. -/
def overall_raw (off_chain_score on_chain_score ai_score : ℚ) : ℚ :=
  off_chain_score * (2/5) + on_chain_score * (2/5) + ai_score * (1/5)

/-- The population variance of the three raw component scores around the
(unrounded) overall score, as computed by `calculate_final_score`. -/
def score_variance (off_chain_score on_chain_score ai_score : ℚ) : ℚ :=
  ((off_chain_score - overall_raw off_chain_score on_chain_score ai_score)^2 +
   (on_chain_score - overall_raw off_chain_score on_chain_score ai_score)^2 +
   (ai_score - overall_raw off_chain_score on_chain_score ai_score)^2) / 3

/-- The fields of the dict returned by `TrustScorer.calculate_final_score`
that the specification constrains: the rounded overall score, the two tier
labels, and the rounded per-category `contribution` entries of
`score_breakdown` (the `investment_recommendation` text and the echoed
`score` / `weight` entries are reporting-only and not modelled). -/
structure FinalScore where
  overall_score : ℚ
  risk_level : RiskLevel
  confidence : ConfidenceLevel
  off_chain_contribution : ℚ
  on_chain_contribution : ℚ
  ai_contribution : ℚ
deriving DecidableEq

/-- `TrustScorer.calculate_final_score` with the fixed weights
`{off_chain: 0.40, on_chain: 0.40, ai_analysis: 0.20}`. -/
def calculate_final_score (off_chain_score on_chain_score ai_score : ℚ) : FinalScore :=
  let overall := overall_raw off_chain_score on_chain_score ai_score
  let variance := score_variance off_chain_score on_chain_score ai_score
  { overall_score := round2 overall
    risk_level :=
      if 80 ≤ overall then .LOW
      else if 60 ≤ overall then .MEDIUM
      else if 40 ≤ overall then .HIGH
      else .CRITICAL
    confidence :=
      if variance < 100 then .HIGH
      else if variance < 400 then .MEDIUM
      else .LOW
    off_chain_contribution := round2 (off_chain_score * (2/5))
    on_chain_contribution := round2 (on_chain_score * (2/5))
    ai_contribution := round2 (ai_score * (1/5)) }

/-- `TrustScorer._calculate_fraud_likelihood`: each analysis block is read
with `.get('score', 0)`, so a missing analysis counts as score 0. -/
def calculate_fraud_likelihood (off_chain_score on_chain_score code_score : Option ℚ) : ℚ :=
  min ((if off_chain_score.getD 0 < 30 then (30:ℚ) else 0) +
       (if on_chain_score.getD 0 < 20 then (40:ℚ) else 0) +
       (if code_score.getD 0 < 20 then (30:ℚ) else 0)) 100

end TrustScorer

namespace RealtimeScorer

/-- The `{score, confidence}` part of each category analyzer's result (the
`findings` strings, `category` tag and `details` map are reporting-only and
not modelled). -/
structure CatResult where
  score : ℚ
  confidence : ℚ
deriving DecidableEq

/-- Payload of the GitHub signal as read by `analyze_github_realtime`: the
`success` flag plus the numeric fields of `data` (each read with a default of
0) and whether `lastUpdate` is a non-empty string.  The `language` field only
feeds findings and is not modelled. -/
structure GithubPayload where
  success : Bool
  stars : Int
  commits : Int
  contributors : Int
  forks : Int
  openIssues : Int
  hasLastUpdate : Bool
deriving DecidableEq

/-- `RealtimeScorer.analyze_github_realtime`.  A missing/falsy payload or
`success` false returns the neutral `{score: 0.5, confidence: 0.3}`;
otherwise tiered threshold rules accumulate score and confidence, both
clamped to 1 and rounded to 3 decimals. -/
def analyze_github_realtime (github_data : Option GithubPayload) : CatResult :=
  match github_data with
  | none => ⟨1/2, 3/10⟩
  | some g =>
    if g.success = false then ⟨1/2, 3/10⟩
    else
      let stars : ℚ × ℚ :=
        if g.stars > 1000 then (3/10, 1/5)
        else if g.stars > 100 then (1/5, 3/20)
        else if g.stars > 10 then (1/10, 1/10) else (0, 0)
      let commits : ℚ × ℚ :=
        if g.commits > 500 then (1/5, 1/5)
        else if g.commits > 100 then (3/20, 3/20)
        else if g.commits > 10 then (1/10, 1/10) else (0, 0)
      let contributors : ℚ × ℚ :=
        if g.contributors > 20 then (3/20, 3/20)
        else if g.contributors > 5 then (1/10, 1/10)
        else if g.contributors > 0 then (1/20, 1/20) else (0, 0)
      let forks : ℚ × ℚ :=
        if g.forks > 100 then (3/20, 3/20)
        else if g.forks > 10 then (1/10, 1/10) else (0, 0)
      let issues : ℚ × ℚ :=
        if g.openIssues > 50 then (1/10, 1/10)
        else if g.openIssues > 10 then (1/20, 1/20) else (0, 0)
      let updateConf : ℚ := if g.hasLastUpdate then 1/10 else 0
      let score := stars.1 + commits.1 + contributors.1 + forks.1 + issues.1
      let confidence := stars.2 + commits.2 + contributors.2 + forks.2 + issues.2 + updateConf
      ⟨TrustScorer.round3 (min score 1), TrustScorer.round3 (min confidence 1)⟩

/-- Payload of the social signal as read by `analyze_social_realtime`. -/
structure SocialData where
  followers : Int
  engagement_rate : ℚ
  hackathons : Nat
  community_mentions : Int
deriving DecidableEq

/-- `RealtimeScorer.analyze_social_realtime`.  A missing/falsy payload
returns the neutral `{score: 0.5, confidence: 0.3}`. -/
def analyze_social_realtime (social_data : Option SocialData) : CatResult :=
  match social_data with
  | none => ⟨1/2, 3/10⟩
  | some d =>
    let followers : ℚ × ℚ :=
      if d.followers > 10000 then (2/5, 3/10)
      else if d.followers > 1000 then (3/10, 1/4)
      else if d.followers > 100 then (1/5, 1/5) else (0, 0)
    let engagement : ℚ × ℚ :=
      if d.engagement_rate > 1/20 then (3/10, 1/5)
      else if d.engagement_rate > 1/50 then (1/5, 3/20) else (0, 0)
    let hackathons : ℚ × ℚ := if d.hackathons > 0 then (3/10, 3/10) else (0, 0)
    let mentions : ℚ × ℚ := if d.community_mentions > 100 then (1/5, 1/5) else (0, 0)
    let score := followers.1 + engagement.1 + hackathons.1 + mentions.1
    let confidence := followers.2 + engagement.2 + hackathons.2 + mentions.2
    ⟨TrustScorer.round3 (min score 1), TrustScorer.round3 (min confidence 1)⟩

/-- Payload of the founder signal as read by `analyze_governance_realtime`. -/
structure FounderData where
  success : Bool
  previousProjects : Int
  hasGithubProfile : Bool
deriving DecidableEq

/-- Payload of the governance signal as read by
`analyze_governance_realtime`. -/
structure GovernanceData where
  has_dao : Bool
  transparent_voting : Bool
  public_roadmap : Bool
deriving DecidableEq

/-- `RealtimeScorer.analyze_governance_realtime`.  There is no early return:
with both payloads missing the accumulators stay at 0 and the result is
`{score: 0, confidence: 0}` (score clamped to 1, confidence to 0.8). -/
def analyze_governance_realtime (founder_data : Option FounderData)
    (governance_data : Option GovernanceData) : CatResult :=
  let founder : ℚ × ℚ :=
    match founder_data with
    | none => (0, 0)
    | some f =>
      if f.success = false then (0, 0)
      else
        let projects : ℚ × ℚ :=
          if f.previousProjects > 3 then (3/10, 1/4)
          else if f.previousProjects > 0 then (1/5, 1/5) else (0, 0)
        let profile : ℚ × ℚ := if f.hasGithubProfile then (1/5, 1/5) else (0, 0)
        (projects.1 + profile.1, projects.2 + profile.2)
  let gov : ℚ × ℚ :=
    match governance_data with
    | none => (0, 0)
    | some g =>
      ((if g.has_dao then (1/5:ℚ) else 0) + (if g.transparent_voting then (3/20:ℚ) else 0) +
        (if g.public_roadmap then (3/20:ℚ) else 0),
       (if g.has_dao then (1/5:ℚ) else 0) + (if g.transparent_voting then (3/20:ℚ) else 0) +
        (if g.public_roadmap then (3/20:ℚ) else 0))
  ⟨TrustScorer.round3 (min (founder.1 + gov.1) 1), TrustScorer.round3 (min (founder.2 + gov.2) (4/5))⟩

/-- Payload of the on-chain signal as read by `analyze_onchain_realtime`. -/
structure OnchainData where
  transaction_count : Int
  contract_interactions : Int
  token_value_usd : ℚ
deriving DecidableEq

/-- `RealtimeScorer.analyze_onchain_realtime`.  A missing/falsy payload
returns the neutral `{score: 0.5, confidence: 0.3}`; otherwise score starts
at 0.5 and confidence at 0.5, score clamps to 1 and confidence to 0.9. -/
def analyze_onchain_realtime (onchain_data : Option OnchainData) : CatResult :=
  match onchain_data with
  | none => ⟨1/2, 3/10⟩
  | some d =>
    let tx : ℚ × ℚ :=
      if d.transaction_count > 1000 then (1/5, 1/5)
      else if d.transaction_count > 100 then (3/20, 3/20) else (0, 0)
    let contracts : ℚ × ℚ := if d.contract_interactions > 0 then (3/20, 3/20) else (0, 0)
    let tokens : ℚ × ℚ := if d.token_value_usd > 10000 then (3/20, 3/20) else (0, 0)
    ⟨TrustScorer.round3 (min (1/2 + tx.1 + contracts.1 + tokens.1) 1),
     TrustScorer.round3 (min (1/2 + tx.2 + contracts.2 + tokens.2) (9/10))⟩

/-- One media file as read by `analyze_media_realtime`; a missing
`manipulation_score` key defaults to 0.1. -/
structure FileInfo where
  has_metadata : Bool
  hash_verified : Bool
  manipulation_score : Option ℚ
deriving DecidableEq

/-- The per-file accumulation step of `analyze_media_realtime`, over the
running `(score, confidence)` pair. -/
def media_file_step (acc : ℚ × ℚ) (f : FileInfo) : ℚ × ℚ :=
  let acc1 := if f.has_metadata then (acc.1 + 1/10, acc.2 + 1/10) else acc
  let acc2 := if f.hash_verified then (acc1.1 + 1/10, acc1.2 + 3/20) else acc1
  if f.manipulation_score.getD (1/10) < 3/10 then (acc2.1, acc2.2 + 1/10)
  else (acc2.1 - 1/5, acc2.2)

/-- `RealtimeScorer.analyze_media_realtime`.  A missing payload or an empty
`files` list returns `{score: 0.7, confidence: 0.5}`; otherwise score starts
at 0.7 (confidence 0.6) and each file adjusts both, with the final score
clamped to `[0, 1]` and confidence to 1. -/
def analyze_media_realtime (media_data : Option (List FileInfo)) : CatResult :=
  match media_data with
  | none => ⟨7/10, 1/2⟩
  | some [] => ⟨7/10, 1/2⟩
  | some files =>
    let acc := files.foldl media_file_step (7/10, 3/5)
    ⟨TrustScorer.round3 (max 0 (min acc.1 1)), TrustScorer.round3 (min acc.2 1)⟩

/-- The five category results passed to
`RealtimeScorer.calculate_final_score`; a missing entry is read with the
default `{score: 0.5, confidence: 0.5}`. -/
structure CategoryResults where
  media_authenticity : Option CatResult
  tech_credibility : Option CatResult
  governance_transparency : Option CatResult
  onchain_behavior : Option CatResult
  social_signals : Option CatResult
deriving DecidableEq

/-- `category_results.get(category, {'score': 0.5, 'confidence': 0.5})`. -/
def getCat (o : Option CatResult) : CatResult := o.getD ⟨1/2, 1/2⟩

/-- Risk tiers of `RealtimeScorer.calculate_final_score`. -/
inductive RtRiskLevel
  | low | medium | high
deriving DecidableEq

/-- The unrounded realtime final score:
`(Σ score_i * weight_i) * 100` with the fixed weights
`{media: 0.30, tech: 0.20, governance: 0.20, onchain: 0.20, social: 0.10}`. -/
def rt_final_raw (r : CategoryResults) : ℚ :=
  ((getCat r.media_authenticity).score * (3/10) +
   (getCat r.tech_credibility).score * (1/5) +
   (getCat r.governance_transparency).score * (1/5) +
   (getCat r.onchain_behavior).score * (1/5) +
   (getCat r.social_signals).score * (1/10)) * 100

/-- The fields of the dict returned by `RealtimeScorer.calculate_final_score`
that the specification constrains: the rounded trust score, weighted
confidence, risk tier, and the rounded per-category `contribution` entries of
`category_scores` (the echoed `score` / `weight` / `confidence` entries,
`risk_color`, findings and timestamp are reporting-only and not modelled). -/
structure RtFinalScore where
  trust_score : ℚ
  confidence : ℚ
  risk_level : RtRiskLevel
  media_contribution : ℚ
  tech_contribution : ℚ
  governance_contribution : ℚ
  onchain_contribution : ℚ
  social_contribution : ℚ
deriving DecidableEq

/-- `RealtimeScorer.calculate_final_score`. -/
def rt_calculate_final_score (r : CategoryResults) : RtFinalScore :=
  let final_score := rt_final_raw r
  { trust_score := TrustScorer.round2 final_score
    confidence := TrustScorer.round3
      ((getCat r.media_authenticity).confidence * (3/10) +
       (getCat r.tech_credibility).confidence * (1/5) +
       (getCat r.governance_transparency).confidence * (1/5) +
       (getCat r.onchain_behavior).confidence * (1/5) +
       (getCat r.social_signals).confidence * (1/10))
    risk_level :=
      if 75 ≤ final_score then .low
      else if 50 ≤ final_score then .medium
      else .high
    media_contribution := TrustScorer.round2 ((getCat r.media_authenticity).score * (3/10) * 100)
    tech_contribution := TrustScorer.round2 ((getCat r.tech_credibility).score * (1/5) * 100)
    governance_contribution :=
      TrustScorer.round2 ((getCat r.governance_transparency).score * (1/5) * 100)
    onchain_contribution := TrustScorer.round2 ((getCat r.onchain_behavior).score * (1/5) * 100)
    social_contribution := TrustScorer.round2 ((getCat r.social_signals).score * (1/10) * 100) }

end RealtimeScorer

namespace SHA256

/-- 2^32, the word modulus of SHA-256. -/
def M32 : Nat := 4294967296

/-- Right rotation of a 32-bit word. -/
def rotr32 (n x : Nat) : Nat := ((x >>> n) ||| (x <<< (32 - n))) % M32

/-- The 64 SHA-256 round constants. -/
def shaK : List Nat :=
  [1116352408, 1899447441, 3049323471, 3921009573, 961987163,
   1508970993, 2453635748, 2870763221, 3624381080, 310598401,
   607225278, 1426881987, 1925078388, 2162078206, 2614888103,
   3248222580, 3835390401, 4022224774, 264347078, 604807628,
   770255983, 1249150122, 1555081692, 1996064986, 2554220882,
   2821834349, 2952996808, 3210313671, 3336571891, 3584528711,
   113926993, 338241895, 666307205, 773529912, 1294757372,
   1396182291, 1695183700, 1986661051, 2177026350, 2456956037,
   2730485921, 2820302411, 3259730800, 3345764771, 3516065817,
   3600352804, 4094571909, 275423344, 430227734, 506948616,
   659060556, 883997877, 958139571, 1322822218, 1537002063,
   1747873779, 1955562222, 2024104815, 2227730452, 2361852424,
   2428436474, 2756734187, 3204031479, 3329325298]

/-- The SHA-256 initial hash state. -/
def shaH0 : List Nat :=
  [1779033703, 3144134277, 1013904242, 2773480762, 1359893119,
   2600822924, 528734635, 1541459225]

/-- Standard SHA-256 padding: append 0x80, zeros, and the 64-bit big-endian
bit length. -/
def padMsg (msg : List Nat) : List Nat :=
  let len := msg.length
  let zeros := (55 + 64 - len % 64) % 64
  let bitLen := len * 8
  msg ++ [0x80] ++ List.replicate zeros 0 ++
    [(bitLen >>> 56) % 256, (bitLen >>> 48) % 256, (bitLen >>> 40) % 256, (bitLen >>> 32) % 256,
     (bitLen >>> 24) % 256, (bitLen >>> 16) % 256, (bitLen >>> 8) % 256, bitLen % 256]

/-- Big-endian packing of bytes into 32-bit words. -/
def toWords : List Nat → List Nat
  | a :: b :: c :: d :: rest => (((a * 256 + b) * 256 + c) * 256 + d) :: toWords rest
  | _ => []

/-- The SHA-256 message-schedule extension, appending one word per step. -/
def extendWords (ws : List Nat) (rounds : Nat) : List Nat :=
  match rounds with
  | 0 => ws
  | r + 1 =>
    let n := ws.length
    let w15 := ws.getD (n - 15) 0
    let w2 := ws.getD (n - 2) 0
    let s0 := (rotr32 7 w15) ^^^ (rotr32 18 w15) ^^^ (w15 >>> 3)
    let s1 := (rotr32 17 w2) ^^^ (rotr32 19 w2) ^^^ (w2 >>> 10)
    extendWords (ws ++ [(ws.getD (n - 16) 0 + s0 + ws.getD (n - 7) 0 + s1) % M32]) r

/-- One SHA-256 compression round over the eight-word state. -/
def compressStep (st : List Nat) (kw : Nat × Nat) : List Nat :=
  match st with
  | [a, b, c, d, e, f, g, h] =>
    let s1 := (rotr32 6 e) ^^^ (rotr32 11 e) ^^^ (rotr32 25 e)
    let ch := (e &&& f) ^^^ ((e ^^^ (M32 - 1)) &&& g)
    let t1 := (h + s1 + ch + kw.1 + kw.2) % M32
    let s0 := (rotr32 2 a) ^^^ (rotr32 13 a) ^^^ (rotr32 22 a)
    let maj := (a &&& b) ^^^ (a &&& c) ^^^ (b &&& c)
    let t2 := (s0 + maj) % M32
    [(t1 + t2) % M32, a, b, c, (d + t1) % M32, e, f, g]
  | l => l

/-- Process one 64-byte block into the running hash state. -/
def processBlock (h : List Nat) (block : List Nat) : List Nat :=
  let ws := extendWords (toWords block) 48
  let st := (shaK.zip ws).foldl compressStep h
  (h.zip st).map (fun p => (p.1 + p.2) % M32)

/-- Split into 64-byte chunks (fuel-based structural recursion). -/
def chunks64Aux : Nat → List Nat → List (List Nat)
  | 0, _ => []
  | _, [] => []
  | fuel + 1, l => l.take 64 :: chunks64Aux fuel (l.drop 64)

/-- Split a byte list into 64-byte chunks. -/
def chunks64 (l : List Nat) : List (List Nat) := chunks64Aux l.length l

/-- SHA-256 over a byte list, as the eight final state words. -/
def sha256Bytes (msg : List Nat) : List Nat :=
  (chunks64 (padMsg msg)).foldl processBlock shaH0

/-- Lower-case hex digit. -/
def hexChar (n : Nat) : Char := if n < 10 then Char.ofNat (48 + n) else Char.ofNat (87 + n)

/-- Eight-digit lower-case hex rendering of a 32-bit word. -/
def word8Hex (w : Nat) : List Char :=
  [hexChar ((w >>> 28) % 16), hexChar ((w >>> 24) % 16), hexChar ((w >>> 20) % 16),
   hexChar ((w >>> 16) % 16), hexChar ((w >>> 12) % 16), hexChar ((w >>> 8) % 16),
   hexChar ((w >>> 4) % 16), hexChar (w % 16)]

/-- UTF-8 encoding of one code point. -/
def utf8Encode (c : Nat) : List Nat :=
  if c < 0x80 then [c]
  else if c < 0x800 then [0xC0 + c / 64, 0x80 + c % 64]
  else if c < 0x10000 then [0xE0 + c / 4096, 0x80 + (c / 64) % 64, 0x80 + c % 64]
  else [0xF0 + c / 262144, 0x80 + (c / 4096) % 64, 0x80 + (c / 64) % 64, 0x80 + c % 64]

/-- UTF-8 byte encoding of a string, as Python `str.encode()` produces. -/
def strBytes (s : String) : List Nat := s.data.flatMap (fun c => utf8Encode c.toNat)

/-- `hashlib.sha256(s.encode()).hexdigest()`: the 64-character lower-case hex
digest of the UTF-8 encoding of `s`. -/
def sha256Hex (s : String) : String :=
  ⟨(sha256Bytes (strBytes s)).flatMap word8Hex⟩

end SHA256

namespace NautilusAgent

/-- Boolean byte-wise (code-point) lexicographic comparison of character
lists, mirroring how Python compares the strings that `json.dumps`
`sort_keys=True` sorts by. -/
def charsLe : List Char → List Char → Bool
  | [], _ => true
  | _ :: _, [] => false
  | c :: cs, d :: ds =>
    if c.toNat < d.toNat then true
    else if d.toNat < c.toNat then false
    else charsLe cs ds

/-- Lexicographic comparison of strings. -/
def strLeb (a b : String) : Bool := charsLe a.data b.data

/-- Insert one rendered field into a key-sorted list of rendered fields. -/
def insertPair (p : String × String) : List (String × String) → List (String × String)
  | [] => [p]
  | q :: rest => if strLeb p.1 q.1 then p :: q :: rest else q :: insertPair p rest

/-- Key-sort the rendered fields of an object, as `sort_keys=True` does. -/
def sortPairs (l : List (String × String)) : List (String × String) :=
  l.foldr insertPair []

/-- An opening brace, written via an escape. -/
def lbrace : String := "\x7b"

/-- A closing brace, written via an escape. -/
def rbrace : String := "\x7d"

/-- A double quote. -/
def dquote : String := "\""

/-- Render a JSON object from its key-sorted rendered fields with the
`json.dumps` default separators. -/
def joinObj (l : List (String × String)) : String :=
  lbrace ++ String.intercalate ", "
    ((sortPairs l).map (fun p => dquote ++ p.1 ++ dquote ++ ": " ++ p.2)) ++ rbrace

/-- A JSON leaf value: a string (assumed free of characters that
`json.dumps` would escape) or an integer (Python floats with integral value
are not distinguished from ints by this model). -/
inductive JAtom where
  | str (s : String)
  | num (n : ℤ)
deriving DecidableEq

/-- A JSON value of nesting depth at most 1. -/
inductive J1 where
  | atom (a : JAtom)
  | obj (fields : List (String × JAtom))
deriving DecidableEq

/-- A JSON value of nesting depth at most 2. -/
inductive J2 where
  | atom (a : JAtom)
  | obj (fields : List (String × J1))
deriving DecidableEq

/-- A JSON value of nesting depth at most 3 (enough for the `trust_score`
dict with its nested `score_breakdown`). -/
inductive J3 where
  | atom (a : JAtom)
  | obj (fields : List (String × J2))
deriving DecidableEq

/-- Serialize a leaf. -/
def serAtom : JAtom → String
  | .str s => dquote ++ s ++ dquote
  | .num n => toString n

/-- Serialize a depth-1 value, sorting object keys. -/
def ser1 : J1 → String
  | .atom a => serAtom a
  | .obj fs => joinObj (fs.map (fun p => (p.1, serAtom p.2)))

/-- Serialize a depth-2 value, sorting object keys at every level. -/
def ser2 : J2 → String
  | .atom a => serAtom a
  | .obj fs => joinObj (fs.map (fun p => (p.1, ser1 p.2)))

/-- Serialize a depth-3 value, sorting object keys at every level. -/
def ser3 : J3 → String
  | .atom a => serAtom a
  | .obj fs => joinObj (fs.map (fun p => (p.1, ser2 p.2)))

/-- Serialize a top-level JSON object, sorting keys at every level: the model
of `json.dumps(hash_data, sort_keys=True)` with default separators. -/
def serTop (fields : List (String × J3)) : String :=
  joinObj (fields.map (fun p => (p.1, ser3 p.2)))

/-- `NautilusAgent._generate_verification_hash`: serialize the hash-data
dict with key-sorted deterministic JSON and take the SHA-256 hex digest. -/
def generate_verification_hash (hash_data : List (String × J3)) : String :=
  SHA256.sha256Hex (serTop hash_data)

/-- The hash-data dict built by `_generate_verification_hash` from the
analysis results: the five covered fields `startup_name`, `quilt_id`,
`trust_score`, `component_scores` and `timestamp`, in the insertion order the
source uses. -/
def hash_data_of (startup_name quilt_id : String) (trust_score : J3)
    (component_scores : List (String × JAtom)) (timestamp : String) :
    List (String × J3) :=
  [("startup_name", .atom (.str startup_name)),
   ("quilt_id", .atom (.str quilt_id)),
   ("trust_score", trust_score),
   ("component_scores", J3.obj (component_scores.map (fun p => (p.1, J2.atom p.2)))),
   ("timestamp", .atom (.str timestamp))]

/-- The second fingerprint call site (`analyze_startup_enhanced`): the
colon-joined f-string over name, username, repo, the certificate average
authenticity and the final score (the latter two are formatted with `:.0f`;
this model takes the resulting integers). -/
def enhanced_verification_hash (startup_name username repo : String)
    (avg_auth final_score : ℤ) : String :=
  SHA256.sha256Hex (startup_name ++ ":" ++ username ++ ":" ++ repo ++ ":" ++
    toString avg_auth ++ ":" ++ toString final_score)


/-- Test-vector trust-score value (the covered field may be any JSON value;
an integral score keeps the vector small). -/
def tvTrust : J3 := .atom (.num 82)

/-- Test-vector trust-score value with the score changed. -/
def tvTrust2 : J3 := .atom (.num 83)

/-- Test-vector component scores. -/
def tvComponents : List (String × JAtom) :=
  [("off_chain", .num 80), ("on_chain", .num 85)]

/-- Test-vector component scores with one value changed. -/
def tvComponents2 : List (String × JAtom) :=
  [("off_chain", .num 81), ("on_chain", .num 85)]

/-- The test-vector component scores in a different insertion order. -/
def tvComponentsPerm : List (String × JAtom) :=
  [("on_chain", .num 85), ("off_chain", .num 80)]

/-- The test-vector hash-data dict in a different insertion order. -/
def tvHashPerm : List (String × J3) :=
  [("timestamp", .atom (.str "T")),
   ("startup_name", .atom (.str "D")),
   ("quilt_id", .atom (.str "Q")),
   ("trust_score", tvTrust),
   ("component_scores", J3.obj (tvComponents.map (fun p => (p.1, J2.atom p.2))))]

end NautilusAgent

/-- Rounding half to even sends an integer value of `ℚ` to that integer. -/
theorem rhe_int (n : ℤ) : TrustScorer.rhe (n : ℚ) = n := by
  unfold TrustScorer.rhe
  rw [Int.fract_intCast, if_neg (by norm_num), round_intCast]

/-- `round2` fixes any rational that is a whole number of hundredths. -/
theorem round2_fix (x : ℚ) (n : ℤ) (h : 100 * x = (n : ℚ)) :
    TrustScorer.round2 x = x := by
  unfold TrustScorer.round2
  rw [h, rhe_int, ← h]
  ring

/-- `round3` fixes any rational that is a whole number of thousandths. -/
theorem round3_fix (x : ℚ) (n : ℤ) (h : 1000 * x = (n : ℚ)) :
    TrustScorer.round3 x = x := by
  unfold TrustScorer.round3
  rw [h, rhe_int, ← h]
  ring

/-- Rounding half to even at a half-integer picks the even neighbour. -/
theorem rhe_half (n : ℤ) :
    TrustScorer.rhe ((n : ℚ) + 1/2) = if n % 2 = 0 then n else n + 1 := by
  unfold TrustScorer.rhe
  have hf : Int.fract ((n:ℚ) + 1/2) = 1/2 := by
    rw [Int.fract_int_add, Int.fract_eq_self.mpr ⟨by norm_num, by norm_num⟩]
  have hfl : ⌊(n:ℚ) + 1/2⌋ = n := by
    rw [Int.floor_int_add, show ⌊(1:ℚ)/2⌋ = 0 by norm_num, add_zero]
  rw [if_pos hf, hfl]

/-- Rounding half to even moves a rational by at most one half. -/
theorem rhe_err (x : ℚ) : |(TrustScorer.rhe x : ℚ) - x| ≤ 1/2 := by
  unfold TrustScorer.rhe
  by_cases hf : Int.fract x = 1/2
  · have h2 : x - (⌊x⌋ : ℚ) = 1/2 := by
      rw [Int.self_sub_floor, hf]
    by_cases he : ⌊x⌋ % 2 = 0
    · rw [if_pos hf, if_pos he]
      have hd : ((⌊x⌋ : ℤ) : ℚ) - x = -(1/2) := by
        push_cast at h2 ⊢
        linarith
      rw [hd, abs_neg, abs_of_nonneg (by norm_num : (0:ℚ) ≤ 1/2)]
    · rw [if_pos hf, if_neg he]
      have hd : ((⌊x⌋ + 1 : ℤ) : ℚ) - x = 1/2 := by
        push_cast at h2 ⊢
        linarith
      rw [hd, abs_of_nonneg (by norm_num : (0:ℚ) ≤ 1/2)]
  · rw [if_neg hf, abs_sub_comm]
    exact abs_sub_round x

/-- `round2` moves a rational by at most half a hundredth. -/
theorem round2_err (x : ℚ) : |TrustScorer.round2 x - x| ≤ 1/200 := by
  unfold TrustScorer.round2
  have h := rhe_err (100 * x)
  have hv : (TrustScorer.rhe (100*x) : ℚ) / 100 - x =
      ((TrustScorer.rhe (100*x) : ℚ) - 100*x) / 100 := by
    ring
  rw [hv, abs_div, abs_of_nonneg (by norm_num : (0:ℚ) ≤ 100)]
  linarith

/-- Triangle-inequality bound for a three-term rounded sum. -/
theorem round2_sum3_err (a b c : ℚ) :
    |TrustScorer.round2 a + TrustScorer.round2 b + TrustScorer.round2 c -
      TrustScorer.round2 (a + b + c)| ≤ 1/50 := by
  obtain ⟨ha1, ha2⟩ := abs_le.mp (round2_err a)
  obtain ⟨hb1, hb2⟩ := abs_le.mp (round2_err b)
  obtain ⟨hc1, hc2⟩ := abs_le.mp (round2_err c)
  obtain ⟨hs1, hs2⟩ := abs_le.mp (round2_err (a + b + c))
  exact abs_le.mpr ⟨by linarith, by linarith⟩

/-- Triangle-inequality bound for a five-term rounded sum. -/
theorem round2_sum5_err (a b c d e : ℚ) :
    |TrustScorer.round2 a + TrustScorer.round2 b + TrustScorer.round2 c +
      TrustScorer.round2 d + TrustScorer.round2 e -
      TrustScorer.round2 (a + b + c + d + e)| ≤ 3/100 := by
  obtain ⟨ha1, ha2⟩ := abs_le.mp (round2_err a)
  obtain ⟨hb1, hb2⟩ := abs_le.mp (round2_err b)
  obtain ⟨hc1, hc2⟩ := abs_le.mp (round2_err c)
  obtain ⟨hd1, hd2⟩ := abs_le.mp (round2_err d)
  obtain ⟨he1, he2⟩ := abs_le.mp (round2_err e)
  obtain ⟨hs1, hs2⟩ := abs_le.mp (round2_err (a + b + c + d + e))
  exact abs_le.mpr ⟨by linarith, by linarith⟩

open GitHubCommitVerifier in
/-- C1: `is_authentic` is true exactly when the matched commit count is at
least 5 and the consistency score is at least 50 and the ownership score is at
least 20; and a verification in which no commit matches the claimed username
returns ownership, activity and consistency scores 0 and `is_authentic`
false. -/
theorem commit_pattern_authenticity (env : OwnershipEnv)
    (commits : List (Option DateInfo)) :
    ((analyze_commit_pattern env commits).is_authentic = true ↔
      5 ≤ (analyze_commit_pattern env commits).user_commits ∧
      50 ≤ (analyze_commit_pattern env commits).consistency_score ∧
      20 ≤ (analyze_commit_pattern env commits).ownership_score) ∧
    (commits = [] →
      (analyze_commit_pattern env commits).ownership_score = 0 ∧
      (analyze_commit_pattern env commits).activity_score = 0 ∧
      (analyze_commit_pattern env commits).consistency_score = 0 ∧
      (analyze_commit_pattern env commits).is_authentic = false) := by
  unfold analyze_commit_pattern
  by_cases h : commits.isEmpty
  · simp [h]
  · have h2 : commits ≠ [] := by simpa [List.isEmpty_iff] using h
    simp [h, h2]

open GitHubCommitVerifier in
/-- C1 witness: the authenticity equivalence and zero-commit clause
instantiated at a concrete empty verification. -/
theorem commit_pattern_authenticity_witness :
    (analyze_commit_pattern ⟨true, true, []⟩ []).is_authentic = false :=
  ((commit_pattern_authenticity ⟨true, true, []⟩ []).2 rfl).2.2.2

open GitHubCommitVerifier in
/-- C2 counterexample: on the §8 scenario input (6 matched commits over 5
distinct ISO weeks, 2 recent, 30 total repository commits) the consistency
score is not 10: Python truncates `100 * 5 / 52 = 9.615…` to 9 rather than
rounding it to 10. -/
theorem scenario_consistency_not_ten :
    ¬ (analyze_commit_pattern scenarioEnv scenarioCommits).consistency_score = 10 := by
  decide

open GitHubCommitVerifier in
/-- C2 amended: on the §8 scenario input the verifier returns
`ownership_score = 20`, `consistency_score = 9` (the floor, not the rounding,
of `100 * 5 / 52`), `activity_score = 20`, and `is_authentic = false`. -/
theorem scenario_commit_verdict :
    analyze_commit_pattern scenarioEnv scenarioCommits =
      { user_commits := 6, total_commits := 30, ownership_score := 20,
        activity_score := 20, consistency_score := 9, is_authentic := false } := by
  decide

open GitHubCommitVerifier in
/-- C3: whenever the contributor-stats request is made and fails (the
repo-info request succeeded, the stats request returned non-200), the
ownership computation returns the neutral fallback: ownership score 50 with
the user's own matched commit count reported as the repository total. -/
theorem ownership_stats_fallback (env : OwnershipEnv) (user_commits : Nat)
    (hrepo : env.repoInfoOk = true) (hstats : env.statsOk = false) :
    calculate_ownership_score env user_commits = (50, user_commits) := by
  unfold calculate_ownership_score
  simp [hrepo, hstats]

open GitHubCommitVerifier in
/-- C3 witness: the stats-failure fallback at a concrete environment. -/
theorem ownership_stats_fallback_witness :
    calculate_ownership_score ⟨true, false, []⟩ 7 = (50, 7) :=
  ownership_stats_fallback ⟨true, false, []⟩ 7 rfl rfl

open GitHubCommitVerifier in
/-- C10: the ownership computation has a third failure branch: when the
initial repo-info request fails it returns `(0, 0)`, not the neutral 50
fallback; the `(50, user_commits)` fallback is taken exactly when the
repo-info request succeeds and the contributor-stats request fails. -/
theorem ownership_repo_info_failure (env : OwnershipEnv) (user_commits : Nat) :
    (env.repoInfoOk = false → calculate_ownership_score env user_commits = (0, 0)) ∧
    (env.repoInfoOk = true → env.statsOk = false →
      calculate_ownership_score env user_commits = (50, user_commits)) := by
  constructor
  · intro h
    unfold calculate_ownership_score
    simp [h]
  · intro h1 h2
    unfold calculate_ownership_score
    simp [h1, h2]

open GitHubCommitVerifier in
/-- C10 witness: repo-info failure at a concrete environment yields `(0, 0)`
even though the stats request would also have failed. -/
theorem ownership_repo_info_failure_witness :
    calculate_ownership_score ⟨false, false, [9]⟩ 4 = (0, 0) :=
  (ownership_repo_info_failure ⟨false, false, [9]⟩ 4).1 rfl

/-- C5: the risk tier is a fixed threshold lookup of the profile's overall
score: in the 3-category profile, overall ≥ 80 is LOW, ≥ 60 is MEDIUM, ≥ 40
is HIGH and otherwise CRITICAL; in the 5-category realtime profile, ≥ 75 is
low, ≥ 50 is medium and otherwise high. -/
theorem risk_tier_thresholds (offsc onsc aisc : ℚ) (r : RealtimeScorer.CategoryResults) :
    ((TrustScorer.calculate_final_score offsc onsc aisc).risk_level = .LOW ↔
      80 ≤ TrustScorer.overall_raw offsc onsc aisc) ∧
    ((TrustScorer.calculate_final_score offsc onsc aisc).risk_level = .MEDIUM ↔
      60 ≤ TrustScorer.overall_raw offsc onsc aisc ∧ TrustScorer.overall_raw offsc onsc aisc < 80) ∧
    ((TrustScorer.calculate_final_score offsc onsc aisc).risk_level = .HIGH ↔
      40 ≤ TrustScorer.overall_raw offsc onsc aisc ∧ TrustScorer.overall_raw offsc onsc aisc < 60) ∧
    ((TrustScorer.calculate_final_score offsc onsc aisc).risk_level = .CRITICAL ↔
      TrustScorer.overall_raw offsc onsc aisc < 40) ∧
    ((RealtimeScorer.rt_calculate_final_score r).risk_level = .low ↔
      75 ≤ RealtimeScorer.rt_final_raw r) ∧
    ((RealtimeScorer.rt_calculate_final_score r).risk_level = .medium ↔
      50 ≤ RealtimeScorer.rt_final_raw r ∧ RealtimeScorer.rt_final_raw r < 75) ∧
    ((RealtimeScorer.rt_calculate_final_score r).risk_level = .high ↔
      RealtimeScorer.rt_final_raw r < 50) := by
  unfold TrustScorer.calculate_final_score RealtimeScorer.rt_calculate_final_score
  refine ⟨?_, ?_, ?_, ?_, ?_, ?_, ?_⟩ <;>
    (dsimp only; split_ifs with h1 h2 h3 <;> constructor <;> intro hh <;>
      first
        | rfl
        | exact hh.elim
        | (exfalso; linarith [hh.1, hh.2])
        | (exfalso; linarith)
        | exact ⟨by linarith, by linarith⟩
        | linarith)

/-- C6 counterexample: for category scores `{docs: 90, chain: 85, code: 88}`
with weights `{0.4, 0.4, 0.2}` the overall score is
`90*0.4 + 85*0.4 + 88*0.2 = 87.6`, not the 87.8 the claim states. -/
theorem scenario_overall_not_87_8 :
    ¬ (TrustScorer.calculate_final_score 90 85 88).overall_score = 87.8 := by
  intro h
  have hov : TrustScorer.overall_raw 90 85 88 = 438/5 := by
    unfold TrustScorer.overall_raw
    norm_num
  rw [show (TrustScorer.calculate_final_score 90 85 88).overall_score =
        TrustScorer.round2 (TrustScorer.overall_raw 90 85 88) from rfl, hov,
      round2_fix (438/5) 8760 (by norm_num)] at h
  norm_num at h

/-- C6 amended: the confidence tier comes from the population variance of the
three raw category scores around the unrounded overall score (variance < 100
is HIGH, < 400 is MEDIUM, otherwise LOW), and the scenario
`{docs: 90, chain: 85, code: 88}` with weights `{0.4, 0.4, 0.2}` yields
overall score 87.6 (variance ≈ 4.23 < 100), confidence HIGH and risk LOW. -/
theorem confidence_variance_rule (offsc onsc aisc : ℚ) :
    ((TrustScorer.calculate_final_score offsc onsc aisc).confidence = .HIGH ↔
      TrustScorer.score_variance offsc onsc aisc < 100) ∧
    ((TrustScorer.calculate_final_score offsc onsc aisc).confidence = .MEDIUM ↔
      100 ≤ TrustScorer.score_variance offsc onsc aisc ∧
      TrustScorer.score_variance offsc onsc aisc < 400) ∧
    ((TrustScorer.calculate_final_score offsc onsc aisc).confidence = .LOW ↔
      400 ≤ TrustScorer.score_variance offsc onsc aisc) ∧
    TrustScorer.calculate_final_score 90 85 88 =
      { overall_score := 438/5, risk_level := .LOW, confidence := .HIGH,
        off_chain_contribution := 36, on_chain_contribution := 34,
        ai_contribution := 88/5 } := by
  have hov : TrustScorer.overall_raw 90 85 88 = 438/5 := by
    unfold TrustScorer.overall_raw
    norm_num
  have hvar : TrustScorer.score_variance 90 85 88 < 100 := by
    unfold TrustScorer.score_variance
    rw [hov]
    norm_num
  have h80 : (80:ℚ) ≤ TrustScorer.overall_raw 90 85 88 := by
    rw [hov]
    norm_num
  refine ⟨?_, ?_, ?_, ?_⟩
  · unfold TrustScorer.calculate_final_score
    dsimp only
    split_ifs with h1 h2 <;> constructor <;> intro hh <;>
      first
        | rfl
        | exact hh.elim
        | (exfalso; linarith [hh.1, hh.2])
        | (exfalso; linarith)
        | exact ⟨by linarith, by linarith⟩
        | linarith
  · unfold TrustScorer.calculate_final_score
    dsimp only
    split_ifs with h1 h2 <;> constructor <;> intro hh <;>
      first
        | rfl
        | exact hh.elim
        | (exfalso; linarith [hh.1, hh.2])
        | (exfalso; linarith)
        | exact ⟨by linarith, by linarith⟩
        | linarith
  · unfold TrustScorer.calculate_final_score
    dsimp only
    split_ifs with h1 h2 <;> constructor <;> intro hh <;>
      first
        | rfl
        | exact hh.elim
        | (exfalso; linarith [hh.1, hh.2])
        | (exfalso; linarith)
        | exact ⟨by linarith, by linarith⟩
        | linarith
  · unfold TrustScorer.calculate_final_score
    dsimp only
    rw [if_pos h80, if_pos hvar, hov]
    congr 1
    · exact round2_fix _ 8760 (by norm_num)
    · rw [show (90:ℚ) * (2/5) = 36 by norm_num]
      exact round2_fix _ 3600 (by norm_num)
    · rw [show (85:ℚ) * (2/5) = 34 by norm_num]
      exact round2_fix _ 3400 (by norm_num)
    · rw [show (88:ℚ) * (1/5) = 88/5 by norm_num]
      exact round2_fix _ 1760 (by norm_num)

/-- C7: fraud likelihood is the sum of the three independent contributions
(+30 when the documents score is below 30, +40 when the on-chain score is
below 20, +30 when the code score is below 20) clamped to at most 100; it
never exceeds 100 and is monotonically non-increasing in each of the three
scores (equivalently, non-decreasing as any score decreases). -/
theorem fraud_likelihood_additive_monotone (d d2 o o2 c c2 : ℚ)
    (hd : d2 ≤ d) (ho : o2 ≤ o) (hc : c2 ≤ c) :
    TrustScorer.calculate_fraud_likelihood (some d) (some o) (some c) =
      min ((if d < 30 then (30:ℚ) else 0) + (if o < 20 then (40:ℚ) else 0) +
           (if c < 20 then (30:ℚ) else 0)) 100 ∧
    TrustScorer.calculate_fraud_likelihood (some d) (some o) (some c) ≤ 100 ∧
    TrustScorer.calculate_fraud_likelihood (some d) (some o) (some c) ≤
      TrustScorer.calculate_fraud_likelihood (some d2) (some o2) (some c2) := by
  refine ⟨rfl, min_le_right _ _, ?_⟩
  unfold TrustScorer.calculate_fraud_likelihood
  refine min_le_min (add_le_add (add_le_add ?_ ?_) ?_) le_rfl
  · by_cases h : d < 30
    · simp only [Option.getD_some, if_pos h, if_pos (lt_of_le_of_lt hd h)]
      exact le_rfl
    · simp only [Option.getD_some, if_neg h]
      split_ifs <;> norm_num
  · by_cases h : o < 20
    · simp only [Option.getD_some, if_pos h, if_pos (lt_of_le_of_lt ho h)]
      exact le_rfl
    · simp only [Option.getD_some, if_neg h]
      split_ifs <;> norm_num
  · by_cases h : c < 20
    · simp only [Option.getD_some, if_pos h, if_pos (lt_of_le_of_lt hc h)]
      exact le_rfl
    · simp only [Option.getD_some, if_neg h]
      split_ifs <;> norm_num

/-- C7 witness: the fraud-likelihood properties at concrete scores: lowering
the three scores from (35, 25, 25) to (10, 10, 10) raises the likelihood. -/
theorem fraud_likelihood_additive_monotone_witness :
    TrustScorer.calculate_fraud_likelihood (some 35) (some 25) (some 25) ≤
      TrustScorer.calculate_fraud_likelihood (some 10) (some 10) (some 10) :=
  (fraud_likelihood_additive_monotone 35 10 25 10 25 10 (by norm_num) (by norm_num)
    (by norm_num)).2.2

/-- C8 counterexample: the media scorer's missing-data return is
`{score: 0.7, confidence: 0.5}`, not the claimed `{score: 0.5,
confidence: 0.3}`. -/
theorem media_missing_default_not_neutral :
    ¬ (RealtimeScorer.analyze_media_realtime none =
        { score := 1/2, confidence := 3/10 }) := by
  intro h
  have h1 : (7:ℚ)/10 = 1/2 := congrArg RealtimeScorer.CatResult.score h
  norm_num at h1

/-- C8 amended: on missing/absent signal data the GitHub, social and on-chain
scorers return `{score: 0.5, confidence: 0.3}`; the media scorer instead
returns `{score: 0.7, confidence: 0.5}` (also for an empty file list, and
likewise for a GitHub payload whose `success` flag is false), and the
governance scorer, which has no early return, returns
`{score: 0, confidence: 0}`. -/
theorem missing_signal_defaults :
    RealtimeScorer.analyze_github_realtime none =
      { score := 1/2, confidence := 3/10 } ∧
    (∀ g : RealtimeScorer.GithubPayload, g.success = false →
      RealtimeScorer.analyze_github_realtime (some g) =
        { score := 1/2, confidence := 3/10 }) ∧
    RealtimeScorer.analyze_social_realtime none =
      { score := 1/2, confidence := 3/10 } ∧
    RealtimeScorer.analyze_onchain_realtime none =
      { score := 1/2, confidence := 3/10 } ∧
    RealtimeScorer.analyze_media_realtime none =
      { score := 7/10, confidence := 1/2 } ∧
    RealtimeScorer.analyze_media_realtime (some []) =
      { score := 7/10, confidence := 1/2 } ∧
    RealtimeScorer.analyze_governance_realtime none none =
      { score := 0, confidence := 0 } := by
  refine ⟨rfl, ?_, rfl, rfl, rfl, rfl, ?_⟩
  · intro g hg
    unfold RealtimeScorer.analyze_github_realtime
    simp [hg]
  · unfold RealtimeScorer.analyze_governance_realtime
    dsimp only
    simp only [add_zero, zero_add]
    rw [min_eq_left (by norm_num : (0:ℚ) ≤ 1), min_eq_left (by norm_num : (0:ℚ) ≤ 4/5),
      round3_fix 0 0 (by norm_num)]

/-- C8 witness: the amended defaults instantiated at a concrete unsuccessful
GitHub payload. -/
theorem missing_signal_defaults_witness :
    RealtimeScorer.analyze_github_realtime (some ⟨false, 5000, 5000, 50, 500, 100, true⟩) =
      { score := 1/2, confidence := 3/10 } :=
  missing_signal_defaults.2.1 ⟨false, 5000, 5000, 50, 500, 100, true⟩ rfl

/-- C4 counterexample: at category scores (55.4375, 38.9375, 65.175) the
3-category breakdown's rounded contributions are 22.18, 15.58 and 13.04
(summing to 50.80) while the reported overall score rounds to 50.78, so the
sum of contributions differs from the overall score by 0.02 > 0.01. -/
theorem roundtrip_tolerance_violation :
    ¬ (|(TrustScorer.calculate_final_score (887/16) (623/16) (2607/40)).off_chain_contribution +
        (TrustScorer.calculate_final_score (887/16) (623/16) (2607/40)).on_chain_contribution +
        (TrustScorer.calculate_final_score (887/16) (623/16) (2607/40)).ai_contribution -
        (TrustScorer.calculate_final_score (887/16) (623/16) (2607/40)).overall_score| ≤
      1/100) := by
  intro h
  have e1 : (TrustScorer.calculate_final_score (887/16) (623/16) (2607/40)).off_chain_contribution
      = 1109/50 := by
    show TrustScorer.round2 ((887:ℚ)/16 * (2/5)) = 1109/50
    unfold TrustScorer.round2
    rw [show (100:ℚ) * (887/16 * (2/5)) = ((2217:ℤ):ℚ) + 1/2 by push_cast; norm_num, rhe_half]
    norm_num
  have e2 : (TrustScorer.calculate_final_score (887/16) (623/16) (2607/40)).on_chain_contribution
      = 779/50 := by
    show TrustScorer.round2 ((623:ℚ)/16 * (2/5)) = 779/50
    unfold TrustScorer.round2
    rw [show (100:ℚ) * (623/16 * (2/5)) = ((1557:ℤ):ℚ) + 1/2 by push_cast; norm_num, rhe_half]
    norm_num
  have e3 : (TrustScorer.calculate_final_score (887/16) (623/16) (2607/40)).ai_contribution
      = 326/25 := by
    show TrustScorer.round2 ((2607:ℚ)/40 * (1/5)) = 326/25
    unfold TrustScorer.round2
    rw [show (100:ℚ) * (2607/40 * (1/5)) = ((1303:ℤ):ℚ) + 1/2 by push_cast; norm_num, rhe_half]
    norm_num
  have e4 : (TrustScorer.calculate_final_score (887/16) (623/16) (2607/40)).overall_score
      = 2539/50 := by
    show TrustScorer.round2 (TrustScorer.overall_raw (887/16) (623/16) (2607/40)) = 2539/50
    unfold TrustScorer.round2 TrustScorer.overall_raw
    rw [show (100:ℚ) * (887/16 * (2/5) + 623/16 * (2/5) + 2607/40 * (1/5)) =
        ((5078:ℤ):ℚ) + 1/2 by push_cast; norm_num, rhe_half]
    norm_num
  rw [e1, e2, e3, e4,
    show (1109:ℚ)/50 + 779/50 + 326/25 - 2539/50 = 1/50 by norm_num,
    abs_of_nonneg (by norm_num : (0:ℚ) ≤ 1/50)] at h
  norm_num at h

/-- C4 amended: the sum of the rounded per-category contributions equals the
reported overall score within 0.02 for the 3-category profile and within 0.03
for the 5-category realtime profile (each reported value carries an
independent rounding error of up to half a hundredth, so the 0.01 tolerance
the claim states does not hold, but these bounds do). -/
theorem roundtrip_bounds (offsc onsc aisc : ℚ) (r : RealtimeScorer.CategoryResults) :
    |(TrustScorer.calculate_final_score offsc onsc aisc).off_chain_contribution +
      (TrustScorer.calculate_final_score offsc onsc aisc).on_chain_contribution +
      (TrustScorer.calculate_final_score offsc onsc aisc).ai_contribution -
      (TrustScorer.calculate_final_score offsc onsc aisc).overall_score| ≤ 1/50 ∧
    |(RealtimeScorer.rt_calculate_final_score r).media_contribution +
      (RealtimeScorer.rt_calculate_final_score r).tech_contribution +
      (RealtimeScorer.rt_calculate_final_score r).governance_contribution +
      (RealtimeScorer.rt_calculate_final_score r).onchain_contribution +
      (RealtimeScorer.rt_calculate_final_score r).social_contribution -
      (RealtimeScorer.rt_calculate_final_score r).trust_score| ≤ 3/100 := by
  constructor
  · show |TrustScorer.round2 (offsc * (2/5)) + TrustScorer.round2 (onsc * (2/5)) +
      TrustScorer.round2 (aisc * (1/5)) -
      TrustScorer.round2 (TrustScorer.overall_raw offsc onsc aisc)| ≤ 1/50
    rw [show TrustScorer.overall_raw offsc onsc aisc =
        offsc * (2/5) + onsc * (2/5) + aisc * (1/5) from rfl]
    exact round2_sum3_err _ _ _
  · show |TrustScorer.round2 ((RealtimeScorer.getCat r.media_authenticity).score * (3/10) * 100) +
      TrustScorer.round2 ((RealtimeScorer.getCat r.tech_credibility).score * (1/5) * 100) +
      TrustScorer.round2 ((RealtimeScorer.getCat r.governance_transparency).score * (1/5) * 100) +
      TrustScorer.round2 ((RealtimeScorer.getCat r.onchain_behavior).score * (1/5) * 100) +
      TrustScorer.round2 ((RealtimeScorer.getCat r.social_signals).score * (1/10) * 100) -
      TrustScorer.round2 (RealtimeScorer.rt_final_raw r)| ≤ 3/100
    rw [show RealtimeScorer.rt_final_raw r =
        (RealtimeScorer.getCat r.media_authenticity).score * (3/10) * 100 +
        (RealtimeScorer.getCat r.tech_credibility).score * (1/5) * 100 +
        (RealtimeScorer.getCat r.governance_transparency).score * (1/5) * 100 +
        (RealtimeScorer.getCat r.onchain_behavior).score * (1/5) * 100 +
        (RealtimeScorer.getCat r.social_signals).score * (1/10) * 100 by
      unfold RealtimeScorer.rt_final_raw
      ring]
    exact round2_sum5_err _ _ _ _ _

namespace NautilusAgent

/-- `charsLe` is total. -/
theorem charsLe_total : ∀ a b : List Char, charsLe a b = true ∨ charsLe b a = true
  | [], b => by
    left
    cases b <;> rfl
  | a :: as, [] => by
    right
    rfl
  | a :: as, b :: bs => by
    unfold charsLe
    by_cases h1 : a.toNat < b.toNat
    · left
      simp [h1]
    · by_cases h2 : b.toNat < a.toNat
      · right
        simp [h1, h2]
      · have := charsLe_total as bs
        simp only [if_neg h1, if_neg h2]
        exact this

/-- `charsLe` is antisymmetric. -/
theorem charsLe_antisymm : ∀ a b : List Char,
    charsLe a b = true → charsLe b a = true → a = b
  | [], [], _, _ => rfl
  | [], b :: bs, _, hba => by
    simp [charsLe] at hba
  | a :: as, [], hab, _ => by
    simp [charsLe] at hab
  | a :: as, b :: bs, hab, hba => by
    unfold charsLe at hab hba
    by_cases h1 : a.toNat < b.toNat
    · rw [if_neg (by omega : ¬ b.toNat < a.toNat), if_pos h1] at hba
      exact absurd hba (by simp)
    · by_cases h2 : b.toNat < a.toNat
      · rw [if_neg h1, if_pos h2] at hab
        exact absurd hab (by simp)
      · rw [if_neg h1, if_neg h2] at hab
        rw [if_neg h2, if_neg h1] at hba
        have hc : a = b := by
          have hn : a.toNat = b.toNat := by omega
          calc a = Char.ofNat a.toNat := (Char.ofNat_toNat a).symm
            _ = Char.ofNat b.toNat := by rw [hn]
            _ = b := Char.ofNat_toNat b
        rw [hc, charsLe_antisymm as bs hab hba]

/-- `charsLe` is transitive. -/
theorem charsLe_trans : ∀ a b c : List Char,
    charsLe a b = true → charsLe b c = true → charsLe a c = true
  | [], b, c, _, _ => by
    cases c <;> rfl
  | a :: as, [], c, hab, _ => by
    simp [charsLe] at hab
  | a :: as, b :: bs, [], _, hbc => by
    simp [charsLe] at hbc
  | a :: as, b :: bs, c :: cs, hab, hbc => by
    unfold charsLe at hab hbc ⊢
    by_cases h1 : a.toNat < b.toNat
    · have hbc2 : b.toNat ≤ c.toNat := by
        by_cases h3 : b.toNat < c.toNat
        · omega
        · by_cases h4 : c.toNat < b.toNat
          · rw [if_neg h3, if_pos h4] at hbc
            exact absurd hbc (by simp)
          · omega
      rw [if_pos (by omega : a.toNat < c.toNat)]
    · by_cases h2 : b.toNat < a.toNat
      · rw [if_neg h1, if_pos h2] at hab
        exact absurd hab (by simp)
      · rw [if_neg h1, if_neg h2] at hab
        by_cases h3 : b.toNat < c.toNat
        · rw [if_pos (by omega : a.toNat < c.toNat)]
        · by_cases h4 : c.toNat < b.toNat
          · rw [if_neg h3, if_pos h4] at hbc
            exact absurd hbc (by simp)
          · rw [if_neg h3, if_neg h4] at hbc
            rw [if_neg (by omega : ¬ a.toNat < c.toNat),
              if_neg (by omega : ¬ c.toNat < a.toNat)]
            exact charsLe_trans as bs cs hab hbc

/-- `strLeb` is total. -/
theorem strLeb_total (a b : String) : strLeb a b = true ∨ strLeb b a = true :=
  charsLe_total a.data b.data

/-- `strLeb` is antisymmetric. -/
theorem strLeb_antisymm (a b : String) (hab : strLeb a b = true)
    (hba : strLeb b a = true) : a = b := by
  cases a with
  | mk da =>
    cases b with
    | mk db =>
      have := charsLe_antisymm da db hab hba
      rw [this]

/-- `strLeb` is transitive. -/
theorem strLeb_trans (a b c : String) (hab : strLeb a b = true)
    (hbc : strLeb b c = true) : strLeb a c = true :=
  charsLe_trans a.data b.data c.data hab hbc

/-- Inserting a rendered field produces a permutation of consing it. -/
theorem insertPair_perm (p : String × String) :
    ∀ l : List (String × String), (insertPair p l).Perm (p :: l)
  | [] => List.Perm.refl _
  | q :: rest => by
    unfold insertPair
    by_cases h : strLeb p.1 q.1
    · rw [if_pos h]
    · rw [if_neg h]
      exact ((insertPair_perm p rest).cons q).trans (List.Perm.swap p q rest)

/-- Inserting into a key-sorted list keeps it key-sorted. -/
theorem insertPair_sorted (p : String × String) :
    ∀ l : List (String × String),
    l.Pairwise (fun a b => strLeb a.1 b.1 = true) →
    (insertPair p l).Pairwise (fun a b => strLeb a.1 b.1 = true)
  | [], _ => List.pairwise_singleton _ _
  | q :: rest, hs => by
    unfold insertPair
    obtain ⟨hq, hrest⟩ := List.pairwise_cons.mp hs
    by_cases h : strLeb p.1 q.1
    · rw [if_pos h]
      refine List.pairwise_cons.mpr ⟨?_, hs⟩
      intro x hx
      rcases List.mem_cons.mp hx with hxq | hxr
      · rw [hxq]
        exact h
      · exact strLeb_trans _ _ _ h (hq x hxr)
    · rw [if_neg h]
      have hqp : strLeb q.1 p.1 = true := by
        rcases strLeb_total p.1 q.1 with h1 | h1
        · exact absurd h1 h
        · exact h1
      refine List.pairwise_cons.mpr ⟨?_, insertPair_sorted p rest hrest⟩
      intro x hx
      rcases List.mem_cons.mp ((insertPair_perm p rest).mem_iff.mp hx) with hxp | hxr
      · rw [hxp]
        exact hqp
      · exact hq x hxr

/-- Key-sorting produces a permutation of the input fields. -/
theorem sortPairs_perm : ∀ l : List (String × String), (sortPairs l).Perm l
  | [] => List.Perm.refl _
  | p :: rest =>
    (insertPair_perm p (sortPairs rest)).trans ((sortPairs_perm rest).cons p)

/-- Key-sorting produces a key-sorted list. -/
theorem sortPairs_sorted : ∀ l : List (String × String),
    (sortPairs l).Pairwise (fun a b => strLeb a.1 b.1 = true)
  | [] => List.Pairwise.nil
  | p :: rest => insertPair_sorted p (sortPairs rest) (sortPairs_sorted rest)

/-- Two key-sorted permutations of the same fields with duplicate-free keys
are equal. -/
theorem sorted_perm_nodup_eq : ∀ l1 l2 : List (String × String), l1.Perm l2 →
    l1.Pairwise (fun a b => strLeb a.1 b.1 = true) →
    l2.Pairwise (fun a b => strLeb a.1 b.1 = true) →
    (l1.map Prod.fst).Nodup → l1 = l2
  | [], l2, hp, _, _, _ => hp.nil_eq
  | a :: t1, [], hp, _, _, _ => by
    have := hp.symm.nil_eq
    exact absurd this (by simp)
  | a :: t1, b :: t2, hp, hs1, hs2, hnd => by
    obtain ⟨ha1, ht1⟩ := List.pairwise_cons.mp hs1
    obtain ⟨hb2, ht2⟩ := List.pairwise_cons.mp hs2
    have hndc : (a.1 :: t1.map Prod.fst).Nodup := by simpa using hnd
    have hnd1 : a.1 ∉ t1.map Prod.fst := (List.nodup_cons.mp hndc).1
    have hab : a = b := by
      have hb : b ∈ a :: t1 := hp.mem_iff.mpr (List.mem_cons_self b t2)
      rcases List.mem_cons.mp hb with hba | hbt
      · exact hba.symm
      · exfalso
        have hle1 : strLeb a.1 b.1 = true := ha1 b hbt
        have ha2 : a ∈ b :: t2 := hp.mem_iff.mp (List.mem_cons_self a t1)
        rcases List.mem_cons.mp ha2 with hab2 | hat
        · rw [hab2] at hnd1
          exact hnd1 (List.mem_map_of_mem Prod.fst hbt)
        · have hle2 : strLeb b.1 a.1 = true := hb2 a hat
          have hkey : a.1 = b.1 := strLeb_antisymm _ _ hle1 hle2
          rw [hkey] at hnd1
          exact hnd1 (List.mem_map_of_mem Prod.fst hbt)
    subst hab
    have hpt : t1.Perm t2 := hp.cons_inv
    have htnd : (t1.map Prod.fst).Nodup := (List.nodup_cons.mp hndc).2
    rw [sorted_perm_nodup_eq t1 t2 hpt ht1 ht2 htnd]

/-- Key-sorting is invariant under permutation of fields with
duplicate-free keys. -/
theorem sortPairs_congr (l1 l2 : List (String × String)) (hp : l1.Perm l2)
    (hnd : (l1.map Prod.fst).Nodup) : sortPairs l1 = sortPairs l2 := by
  refine sorted_perm_nodup_eq _ _ ?_ (sortPairs_sorted l1) (sortPairs_sorted l2) ?_
  · exact (sortPairs_perm l1).trans (hp.trans (sortPairs_perm l2).symm)
  · exact (((sortPairs_perm l1).map Prod.fst).nodup_iff).mpr hnd

/-- Object rendering is invariant under permutation of fields with
duplicate-free keys. -/
theorem joinObj_congr (l1 l2 : List (String × String)) (hp : l1.Perm l2)
    (hnd : (l1.map Prod.fst).Nodup) : joinObj l1 = joinObj l2 := by
  unfold joinObj
  rw [sortPairs_congr l1 l2 hp hnd]

end NautilusAgent

namespace NautilusAgent

/-- In-kernel evaluation of the JSON fingerprint of the base test vector;
the digest equals what CPython's `json.dumps(…, sort_keys=True)` plus
`hashlib.sha256` produce on the same input. -/
theorem tv_digest_base :
    generate_verification_hash (hash_data_of "D" "Q" tvTrust tvComponents "T") =
    "9fa929b83e9a827698fccccfede844aede3ce2f9ad300ddd0c6af73ba344c8e4" := by
  decide

/-- JSON fingerprint with the startup name changed. -/
theorem tv_digest_name :
    generate_verification_hash (hash_data_of "E" "Q" tvTrust tvComponents "T") =
    "cfc5d24d62cfca08316d67a9eb453559c282aaf73df0f893b377710ea2f5c6b1" := by
  decide

/-- JSON fingerprint with the quilt id changed. -/
theorem tv_digest_quilt :
    generate_verification_hash (hash_data_of "D" "R" tvTrust tvComponents "T") =
    "7d906fb5980fb0dfb399781509b4a5115e7a7bb7ead311078355dba02662850d" := by
  decide

/-- JSON fingerprint with the trust score changed. -/
theorem tv_digest_trust :
    generate_verification_hash (hash_data_of "D" "Q" tvTrust2 tvComponents "T") =
    "53a5ac718c4a27841e64d70fa4469d99f19c38f24df24e7b880ba6b6ece9dddb" := by
  decide

/-- JSON fingerprint with one component score changed. -/
theorem tv_digest_component :
    generate_verification_hash (hash_data_of "D" "Q" tvTrust tvComponents2 "T") =
    "91baa65651623911476a32477b9cbace119a2091d09fb37fd01b1641e32ce4a1" := by
  decide

/-- JSON fingerprint with the timestamp changed. -/
theorem tv_digest_timestamp :
    generate_verification_hash (hash_data_of "D" "Q" tvTrust tvComponents "U") =
    "7c2a6dbf812fcae9a8211202989917e8bfd9c43c99d9892bb0a54a39fc18a821" := by
  decide

/-- F-string fingerprint of the base test vector. -/
theorem ev_digest_base :
    enhanced_verification_hash "D" "a" "r" 80 55 =
    "35aa392132d34e2bf9a2c09dd5a8dc46f4862d95bd3b91b317a8bc1987f52a97" := by
  decide

/-- F-string fingerprint with the startup name changed. -/
theorem ev_digest_name :
    enhanced_verification_hash "E" "a" "r" 80 55 =
    "28063009587d934a795fe9e179f4244cfda86503a85763adf526c5ffb664bf48" := by
  decide

/-- F-string fingerprint with the username changed. -/
theorem ev_digest_username :
    enhanced_verification_hash "D" "b" "r" 80 55 =
    "548c1106f5900941ebb20e157d5e37b20ab3258aae03a2e176d6e2b385a8d45b" := by
  decide

/-- F-string fingerprint with the repo changed. -/
theorem ev_digest_repo :
    enhanced_verification_hash "D" "a" "s" 80 55 =
    "51f6e6a9447f8696f53c2612c5449ad9b67886ebfda472e71d2d38a2041ad355" := by
  decide

/-- F-string fingerprint with the average authenticity changed. -/
theorem ev_digest_avg :
    enhanced_verification_hash "D" "a" "r" 81 55 =
    "414ff927ead2ddd5aab4168a6e0e0ac58fdca2f15fcf04cfac53829a2cc1a979" := by
  decide

/-- F-string fingerprint with the final score changed. -/
theorem ev_digest_final :
    enhanced_verification_hash "D" "a" "r" 80 56 =
    "bdaacb687a626a570ca91d96a397133e741ea2758a07c28912fbf66b2a27926a" := by
  decide

end NautilusAgent

open NautilusAgent in
/-- C9: both fingerprint profiles are deterministic and change-sensitive: the
JSON profile's digest is unchanged under any insertion order of the hash-data
dict and of the component-scores dict (key-sorted serialization), and on the
given test vectors changing any single covered field (startup name, quilt id,
trust score, a component score, timestamp — respectively name, username,
repo, average authenticity, final score for the f-string profile) changes the
256-bit digest. -/
theorem fingerprint_determinism_sensitivity :
    (∀ (sn qid tstamp : String) (ts : J3) (cs cs2 : List (String × JAtom))
        (l : List (String × J3)),
      l.Perm (hash_data_of sn qid ts cs tstamp) →
      cs.Perm cs2 →
      (cs.map Prod.fst).Nodup →
      generate_verification_hash l =
        generate_verification_hash (hash_data_of sn qid ts cs2 tstamp)) ∧
    generate_verification_hash (hash_data_of "D" "Q" tvTrust tvComponents "T") ≠
      generate_verification_hash (hash_data_of "E" "Q" tvTrust tvComponents "T") ∧
    generate_verification_hash (hash_data_of "D" "Q" tvTrust tvComponents "T") ≠
      generate_verification_hash (hash_data_of "D" "R" tvTrust tvComponents "T") ∧
    generate_verification_hash (hash_data_of "D" "Q" tvTrust tvComponents "T") ≠
      generate_verification_hash (hash_data_of "D" "Q" tvTrust2 tvComponents "T") ∧
    generate_verification_hash (hash_data_of "D" "Q" tvTrust tvComponents "T") ≠
      generate_verification_hash (hash_data_of "D" "Q" tvTrust tvComponents2 "T") ∧
    generate_verification_hash (hash_data_of "D" "Q" tvTrust tvComponents "T") ≠
      generate_verification_hash (hash_data_of "D" "Q" tvTrust tvComponents "U") ∧
    enhanced_verification_hash "D" "a" "r" 80 55 ≠
      enhanced_verification_hash "E" "a" "r" 80 55 ∧
    enhanced_verification_hash "D" "a" "r" 80 55 ≠
      enhanced_verification_hash "D" "b" "r" 80 55 ∧
    enhanced_verification_hash "D" "a" "r" 80 55 ≠
      enhanced_verification_hash "D" "a" "s" 80 55 ∧
    enhanced_verification_hash "D" "a" "r" 80 55 ≠
      enhanced_verification_hash "D" "a" "r" 81 55 ∧
    enhanced_verification_hash "D" "a" "r" 80 55 ≠
      enhanced_verification_hash "D" "a" "r" 80 56 := by
  refine ⟨?_,
    by rw [tv_digest_base, tv_digest_name]; decide,
    by rw [tv_digest_base, tv_digest_quilt]; decide,
    by rw [tv_digest_base, tv_digest_trust]; decide,
    by rw [tv_digest_base, tv_digest_component]; decide,
    by rw [tv_digest_base, tv_digest_timestamp]; decide,
    by rw [ev_digest_base, ev_digest_name]; decide,
    by rw [ev_digest_base, ev_digest_username]; decide,
    by rw [ev_digest_base, ev_digest_repo]; decide,
    by rw [ev_digest_base, ev_digest_avg]; decide,
    by rw [ev_digest_base, ev_digest_final]; decide⟩
  intro sn qid tstamp ts cs cs2 l hl hcs hnd
  unfold generate_verification_hash
  have step1 : serTop l = serTop (hash_data_of sn qid ts cs tstamp) := by
    unfold serTop
    apply joinObj_congr
    · exact hl.map _
    · have hkeys : (l.map (fun p => (p.1, ser3 p.2))).map Prod.fst = l.map Prod.fst := by
        simp [List.map_map, Function.comp]
      rw [hkeys]
      have hbk : ((hash_data_of sn qid ts cs tstamp).map Prod.fst).Nodup := by
        have hlit : (hash_data_of sn qid ts cs tstamp).map Prod.fst =
            ["startup_name", "quilt_id", "trust_score", "component_scores", "timestamp"] := rfl
        rw [hlit]
        decide
      exact ((hl.map Prod.fst).nodup_iff).mpr hbk
  have hcs3 : ser3 (J3.obj (cs.map (fun p => (p.1, J2.atom p.2)))) =
      ser3 (J3.obj (cs2.map (fun p => (p.1, J2.atom p.2)))) := by
    simp only [ser3]
    apply joinObj_congr
    · exact (hcs.map _).map _
    · have hkeys : (((cs.map (fun p => (p.1, J2.atom p.2))).map
          (fun p => (p.1, ser2 p.2))).map Prod.fst) = cs.map Prod.fst := by
        simp [List.map_map, Function.comp]
      rw [hkeys]
      exact hnd
  have step2 : serTop (hash_data_of sn qid ts cs tstamp) =
      serTop (hash_data_of sn qid ts cs2 tstamp) := by
    unfold serTop hash_data_of
    simp only [List.map]
    rw [hcs3]
  rw [step1.trans step2]

open NautilusAgent in
/-- C9 witness: the JSON fingerprint of the test vector computed from a
shuffled hash-data dict and a shuffled component-scores dict equals the one
computed in the source's insertion order. -/
theorem fingerprint_determinism_sensitivity_witness :
    generate_verification_hash tvHashPerm =
      generate_verification_hash
        (hash_data_of "D" "Q" tvTrust tvComponentsPerm "T") :=
  fingerprint_determinism_sensitivity.1 "D" "Q" "T" tvTrust
    tvComponents tvComponentsPerm tvHashPerm (by decide) (by decide) (by decide)
